import Mathlib

/-!
Shallow embedding of the `whisp` repository's risk-classification and
column-ordering pipeline (`src/whisp/src/tidy_tables.py`).

Modelling conventions:
* A pandas cell is `Cell`: a numeric value (exact rationals stand in for
  Python floats), a string, or NaN/absent (`Cell.missing`).
* A row is a total function from column names to cells; columns absent
  from the frame conventionally hold `Cell.missing`.  A `DataFrame`
  carries the ordered column list and the list of rows.  Where pandas
  would raise `KeyError`/`TypeError` (reading a column that does not
  exist, comparing a string cell with a number) the embedding yields
  `Cell.missing` / a false comparison; the claims settled here do not
  hinge on those raising paths, and comments note them where relevant.
* `percent_or_ha` and `geometry_area_column` are process-wide
  configuration values imported by the source from `config_runtime`
  (a module not part of the analysed sources); they are passed here as
  explicit leading parameters and quantified in the theorems.
* Python exceptions are modelled with `Except String`.
-/

namespace Whisp

/-- A single cell of a table: a number, a string label, or missing/NaN. -/
inductive Cell where
  | num (q : ℚ)
  | str (s : String)
  | missing
deriving DecidableEq, Repr

/-- A row maps column names to cells; absent columns map to `Cell.missing`. -/
def Row : Type := String → Cell

/-- Functional update of a row at one column (pandas cell assignment). -/
def Row.set (r : Row) (c : String) (v : Cell) : Row :=
  fun x => if x = c then v else r x

/-- A data frame: ordered column names plus the rows. -/
structure DataFrame where
  cols : List String
  rows : List Row

/-- Numeric view of a cell (`none` for strings and missing values). -/
def Cell.asNum : Cell → Option ℚ
  | Cell.num q => some q
  | _ => none

/-- Appending a freshly assigned column name, as pandas column assignment
does: an existing column keeps its position, a new one goes to the end. -/
def addColName (cols : List String) (name : String) : List String :=
  if name ∈ cols then cols else cols ++ [name]

/-- String literals of the source, named so they can be applied as plain
arguments. -/
def haString : String := "ha"

def percentString : String := "percent"

def noString : String := "no"

def yesString : String := "yes"

def lowString : String := "low"

def moreInfoString : String := "more_info_needed"

def highString : String := "high"

def eudrRiskString : String := "EUDR_risk"

def rangeMsg : String := "Value must be between 0 and 100."

/-- Source `clamp` (scalar branch; the Series branch `clip` acts the same
pointwise): `max(min_val, min(value, max_val))`. -/
def clamp (value min_val max_val : ℚ) : ℚ :=
  max min_val (min value max_val)

/-- Source `check_range`: raises `ValueError` unless `0 <= value <= 100`. -/
def check_range (value : ℚ) : Except String Unit :=
  if 0 ≤ value ∧ value ≤ 100 then Except.ok () else Except.error rangeMsg

/-- The list comprehension `[check_range(t) for t in thresholds]`: checks
each threshold in order, stopping at the first failure. -/
def check_ranges : List ℚ → Except String Unit
  | [] => Except.ok ()
  | t :: ts => (check_range t).bind fun _ => check_ranges ts

/-- The value a row contributes for one input column inside
`add_indicator_column`: in "ha" mode the source compares
`clamp((df[col] / df[geometry_area_column]) * 100, 0, 100)`, otherwise the
raw `df[col]`.  Non-numeric cells behave like NaN: the comparison below
treats them as never exceeding the threshold. -/
def valToCheck (percent_or_ha geometry_area_column : String) (r : Row)
    (col : String) : Option ℚ :=
  if percent_or_ha = haString then
    match r col, r geometry_area_column with
    | Cell.num v, Cell.num a => some (clamp (v / a * 100) 0 100)
    | _, _ => none
  else (r col).asNum

/-- Strict threshold comparison `val_to_check > threshold` of the source. -/
def exceeds (percent_or_ha geometry_area_column : String) (r : Row)
    (col : String) (threshold : ℚ) : Bool :=
  match valToCheck percent_or_ha geometry_area_column r col with
  | some v => decide (threshold < v)
  | none => false

/-- Row-wise sum `df[input_columns].sum(axis=1)` (NaN contributing 0). -/
def sumValues (r : Row) (cols : List String) : ℚ :=
  cols.foldl (fun acc c => acc + ((r c).asNum.getD 0)) 0

/-- One iteration of the column loop of `add_indicator_column` acting on a
single row: `df.loc[val_to_check > threshold, new_column_name] = high_name`
restricted to that row. -/
def indicatorStep (percent_or_ha geometry_area_column : String)
    (threshold : ℚ) (new_column_name high_name : String)
    (acc : Row) (col : String) : Row :=
  if exceeds percent_or_ha geometry_area_column acc col threshold then
    acc.set new_column_name (Cell.str high_name)
  else acc

/-- Source `add_indicator_column`.  It first creates `new_column_name`
initialized to `low_name` for every row, then either compares the row-wise
sum (when `sum_comparison`) or iterates the input columns, setting the new
column to `high_name` wherever the processed value strictly exceeds the
threshold.  The column-by-column pandas masking is expressed as a per-row
fold over `input_columns`, which agrees with the source whenever the new
column is not itself read as an input (the source would raise a
`TypeError` in that case).  Note the source defaults
`low_name="yes", high_name="no"`, the reverse of its docstring. -/
def add_indicator_column (percent_or_ha geometry_area_column : String)
    (df : DataFrame) (input_columns : List String) (threshold : ℚ)
    (new_column_name : String)
    (low_name : String := "yes") (high_name : String := "no")
    (sum_comparison : Bool := false) : DataFrame :=
  let withLow : DataFrame :=
    { cols := addColName df.cols new_column_name,
      rows := df.rows.map fun r => r.set new_column_name (Cell.str low_name) }
  if sum_comparison then
    { withLow with
      rows := withLow.rows.map fun r =>
        if threshold < sumValues r input_columns then
          r.set new_column_name (Cell.str high_name)
        else r }
  else
    { withLow with
      rows := withLow.rows.map fun r =>
        input_columns.foldl
          (indicatorStep percent_or_ha geometry_area_column threshold
            new_column_name high_name)
          r }

/-- Source `add_indicators`: zips input-column sets, thresholds and names
(stopping at the shortest list, as Python `zip` does) and chains
`add_indicator_column` calls. -/
def add_indicators (percent_or_ha geometry_area_column : String) :
    DataFrame → List (List String) → List ℚ → List String → String → String →
    DataFrame
  | df, ic :: ics, t :: ts, n :: ns, low_name, high_name =>
      add_indicators percent_or_ha geometry_area_column
        (add_indicator_column percent_or_ha geometry_area_column df ic t n
          low_name high_name false)
        ics ts ns low_name high_name
  | df, _, _, _, _, _ => df

/-- The per-row decision of `add_eudr_risk_col`, in the source's exact
branch order; the compared strings "no"/"yes" are literals in the source,
independent of any label arguments. -/
def riskLabel (r : Row) (ind_1_name ind_2_name ind_3_name ind_4_name : String) :
    String :=
  if r ind_1_name = Cell.str noString ∨ r ind_2_name = Cell.str yesString ∨
      r ind_3_name = Cell.str yesString then lowString
  else if r ind_4_name = Cell.str noString then moreInfoString
  else highString

/-- Source `add_eudr_risk_col`: iterates the rows and assigns the
`EUDR_risk` cell per row.  With zero rows the loop body never runs, so the
column is only created when at least one row exists (pandas `df.at`
creates it on first assignment). -/
def add_eudr_risk_col (df : DataFrame)
    (ind_1_name ind_2_name ind_3_name ind_4_name : String) : DataFrame :=
  { cols := if df.rows.isEmpty then df.cols else addColName df.cols eudrRiskString,
    rows := df.rows.map fun r =>
      r.set eudrRiskString
        (Cell.str (riskLabel r ind_1_name ind_2_name ind_3_name ind_4_name)) }

/-- Source `whisp_risk`.  It validates the four thresholds, then builds the
indicator columns and finally the risk column.  NOTE (faithful to the
source): the `names` list passed to `add_indicators` is
`[ind_1_name, ind_2_name, ind_3_name]` — the fourth name is absent, so
`zip` stops after three indicators.  The default input-column sets of the
source come from the external `config_runtime` module and are therefore
required arguments here. -/
def whisp_risk (percent_or_ha geometry_area_column : String) (df : DataFrame)
    (ind_1_pcent_threshold ind_2_pcent_threshold ind_3_pcent_threshold
      ind_4_pcent_threshold : ℚ)
    (ind_1_input_columns ind_2_input_columns ind_3_input_columns
      ind_4_input_columns : List String)
    (ind_1_name : String := "Indicator_1_treecover")
    (ind_2_name : String := "Indicator_2_commodities")
    (ind_3_name : String := "Indicator_3_disturbance_before_2020")
    (ind_4_name : String := "Indicator_4_disturbance_after_2020")
    (low_name : String := "no") (high_name : String := "yes") :
    Except String DataFrame :=
  (check_ranges [ind_1_pcent_threshold, ind_2_pcent_threshold,
      ind_3_pcent_threshold, ind_4_pcent_threshold]).bind fun _ =>
    Except.ok (add_eudr_risk_col
      (add_indicators percent_or_ha geometry_area_column df
        [ind_1_input_columns, ind_2_input_columns, ind_3_input_columns,
          ind_4_input_columns]
        [ind_1_pcent_threshold, ind_2_pcent_threshold, ind_3_pcent_threshold,
          ind_4_pcent_threshold]
        [ind_1_name, ind_2_name, ind_3_name]
        low_name high_name)
      ind_1_name ind_2_name ind_3_name ind_4_name)

/-- A row of the lookup table used by the column orderer: the source reads
the `dataset_name` and `dataset_order` columns. -/
structure LookupRow where
  dataset_name : String
  dataset_order : ℚ
deriving DecidableEq

/-- Ordered insertion by `dataset_order`.  The source sorts via pandas
`sort_values(by=["dataset_order"])` with the default algorithm; this
embedding realizes the ascending sort with insertion sort, which agrees
with the source up to the order of rows with equal `dataset_order` (the
source's default quicksort pins no tie order). -/
def insertByOrder (x : LookupRow) : List LookupRow → List LookupRow
  | [] => [x]
  | y :: ys =>
      if x.dataset_order ≤ y.dataset_order then x :: y :: ys
      else y :: insertByOrder x ys

/-- Ascending sort of the lookup rows by `dataset_order`. -/
def sortByOrder : List LookupRow → List LookupRow
  | [] => []
  | x :: xs => insertByOrder x (sortByOrder xs)

/-- Source `order_list_from_lookup`: dataset names sorted by order. -/
def order_list_from_lookup (lookup_gee_datasets : List LookupRow) :
    List String :=
  (sortByOrder lookup_gee_datasets).map LookupRow.dataset_name

/-- Source `create_column_list_from_lookup`: the prefix columns followed by
the sorted dataset names. -/
def create_column_list_from_lookup (lookup_gee_datasets : List LookupRow)
    (prefix_columns_list : List String) : List String :=
  prefix_columns_list ++ order_list_from_lookup lookup_gee_datasets

/-- Pandas `df.reindex(columns=cols)`: the result has exactly `cols`;
columns taken from the frame where present, missing/NaN where absent, and
former columns outside `cols` are dropped. -/
def reindex (df : DataFrame) (cols : List String) : DataFrame :=
  { cols := cols,
    rows := df.rows.map fun r => fun c =>
      if c ∈ cols ∧ c ∈ df.cols then r c else Cell.missing }

/-- Source `reorder_columns_by_lookup` (its `dataset_order_column` and
`dataset_name_column` parameters are unused by the source, which hardcodes
the two lookup field names). -/
def reorder_columns_by_lookup (df : DataFrame)
    (lookup_gee_datasets : List LookupRow)
    (prefix_columns_list : List String := []) : DataFrame :=
  reindex df (create_column_list_from_lookup lookup_gee_datasets
    prefix_columns_list)

/-- Builds a row from an association list of cells; every other column is
missing.  Used only to write down concrete test frames. -/
def rowOf (l : List (String × Cell)) : Row :=
  fun c => (((l.find? fun p => p.fst = c).map Prod.snd).getD Cell.missing)

/-! Concrete column names, labels and frames used for witnesses and
counterexamples. -/

def aCol : String := "a"

def gCol : String := "Area"

def indCol : String := "Ind"

def i1 : String := "I1"

def i2 : String := "I2"

def i3 : String := "I3"

def i4 : String := "I4"

def maybeString : String := "maybe"

def lowLab : String := "L"

def highLab : String := "H"

def pCol : String := "geo_id"

def nA : String := "dsA"

def nB : String := "dsB"

def xCol : String := "extra"

/-- One-row metrics frame: metric `a = 50`, total area `Area = 100`. -/
def dfMetrics : DataFrame :=
  { cols := [aCol, gCol],
    rows := [rowOf [(aCol, Cell.num 50), (gCol, Cell.num 100)]] }

/-- Two-row frame already carrying the four indicator columns: the rows of
the spec's `more_info_needed` and `high` examples. -/
def dfRisk : DataFrame :=
  { cols := [i1, i2, i3, i4],
    rows :=
      [rowOf [(i1, Cell.str yesString), (i2, Cell.str noString),
        (i3, Cell.str noString), (i4, Cell.str noString)],
       rowOf [(i1, Cell.str yesString), (i2, Cell.str noString),
        (i3, Cell.str noString), (i4, Cell.str yesString)]] }

/-- One-row frame whose indicator columns use the label pair
("no", "maybe"): the first cell is the literal "no". -/
def dfC9 : DataFrame :=
  { cols := [i1, i2, i3, i4],
    rows :=
      [rowOf [(i1, Cell.str noString), (i2, Cell.str maybeString),
        (i3, Cell.str maybeString), (i4, Cell.str maybeString)]] }

/-- One-row frame whose indicator columns use the label pair ("L", "H"),
neither of which is "no" or "yes". -/
def dfC9w : DataFrame :=
  { cols := [i1, i2, i3, i4],
    rows :=
      [rowOf [(i1, Cell.str highLab), (i2, Cell.str lowLab),
        (i3, Cell.str lowLab), (i4, Cell.str highLab)]] }

/-- Lookup table with two datasets whose orders are reversed. -/
def lkC6 : List LookupRow := [⟨nA, 2⟩, ⟨nB, 1⟩]

/-- Frame with a prefix column, one canonical column and one extra column
that the canonical list does not mention. -/
def dfC6 : DataFrame :=
  { cols := [pCol, nA, xCol],
    rows := [rowOf [(pCol, Cell.num 1), (nA, Cell.num 3),
      (xCol, Cell.num 4)]] }

/-! Basic lemmas about row update. -/

lemma Row.set_self (r : Row) (c : String) (v : Cell) : (r.set c v) c = v := by
  unfold Row.set
  simp

lemma Row.set_other (r : Row) (c x : String) (v : Cell) (h : x ≠ c) :
    (r.set c v) x = r x := by
  unfold Row.set
  simp [h]

lemma Row.set_set (r : Row) (c : String) (v w : Cell) :
    (r.set c v).set c w = r.set c w := by
  funext x
  unfold Row.set
  by_cases h : x = c <;> simp [h]

/-- Updating the indicator column does not change the processed value of
any other column (the area column being another one). -/
lemma valToCheck_set (m g : String) (r : Row) (n col : String) (v : Cell)
    (hc : col ≠ n) (hg : g ≠ n) :
    valToCheck m g (r.set n v) col = valToCheck m g r col := by
  unfold valToCheck
  rw [Row.set_other r n col v hc, Row.set_other r n g v hg]

lemma exceeds_set (m g : String) (r : Row) (n col : String) (v : Cell)
    (t : ℚ) (hc : col ≠ n) (hg : g ≠ n) :
    exceeds m g (r.set n v) col t = exceeds m g r col t := by
  unfold exceeds
  rw [valToCheck_set m g r n col v hc hg]

lemma indicatorStep_set (m g : String) (t : ℚ) (n hi c : String) (r : Row)
    (v : Cell) (hc : c ≠ n) (hg : g ≠ n) :
    indicatorStep m g t n hi (r.set n v) c
      = r.set n (if exceeds m g r c t then Cell.str hi else v) := by
  unfold indicatorStep
  rw [exceeds_set m g r n c v t hc hg]
  by_cases hb : exceeds m g r c t = true
  · rw [if_pos hb, if_pos hb, Row.set_set]
  · rw [if_neg hb, if_neg hb]

/-- The column loop of `add_indicator_column` on one row realizes the OR
across the input columns: starting from the row initialized at the new
column, the final cell is the high label exactly when some input column's
processed value exceeds the threshold, and the initial cell otherwise.
Requires that the loop does not read the new column itself. -/
lemma foldl_indicatorStep (m g : String) (t : ℚ) (n hi : String)
    (cols : List String) :
    ∀ (r : Row) (v : Cell), n ∉ cols → g ≠ n →
      cols.foldl (indicatorStep m g t n hi) (r.set n v)
        = r.set n
            (if cols.any (fun col => exceeds m g r col t) then Cell.str hi
             else v) := by
  induction cols with
  | nil =>
    intro r v _ _
    simp
  | cons c cs ih =>
    intro r v hn hg
    have hcn : c ≠ n := fun h => hn (h ▸ List.mem_cons_self c cs)
    have hcs : n ∉ cs := fun h => hn (List.mem_cons_of_mem c h)
    rw [List.foldl_cons, indicatorStep_set m g t n hi c r v hcn hg,
      ih r _ hcs hg, List.any_cons]
    cases hb : exceeds m g r c t <;> simp [hb]

/-- Without any hypotheses, the column loop leaves the new column's cell
untouched or sets it to the high label. -/
lemma foldl_indicatorStep_mem (m g : String) (t : ℚ) (n hi : String)
    (cols : List String) :
    ∀ r : Row,
      (cols.foldl (indicatorStep m g t n hi) r) n = r n ∨
      (cols.foldl (indicatorStep m g t n hi) r) n = Cell.str hi := by
  induction cols with
  | nil =>
    intro r
    left
    rfl
  | cons c cs ih =>
    intro r
    rw [List.foldl_cons]
    by_cases hb : exceeds m g r c t = true
    · have hs : indicatorStep m g t n hi r c = r.set n (Cell.str hi) := by
        unfold indicatorStep
        rw [if_pos hb]
      rw [hs]
      rcases ih (r.set n (Cell.str hi)) with h | h
      · right
        rw [h, Row.set_self]
      · right
        exact h
    · have hs : indicatorStep m g t n hi r c = r := by
        unfold indicatorStep
        rw [if_neg hb]
      rw [hs]
      exact ih r

/-! Unfolding equations of `add_indicator_column`. -/

lemma add_indicator_column_cols (m g : String) (df : DataFrame)
    (ics : List String) (t : ℚ) (n lo hi : String) (sc : Bool) :
    (add_indicator_column m g df ics t n lo hi sc).cols
      = addColName df.cols n := by
  cases sc <;> rfl

lemma add_indicator_column_rows (m g : String) (df : DataFrame)
    (ics : List String) (t : ℚ) (n lo hi : String) :
    (add_indicator_column m g df ics t n lo hi false).rows
      = (df.rows.map fun r => r.set n (Cell.str lo)).map
          (fun r => ics.foldl (indicatorStep m g t n hi) r) := rfl

lemma add_indicator_column_sum_rows (m g : String) (df : DataFrame)
    (ics : List String) (t : ℚ) (n lo hi : String) :
    (add_indicator_column m g df ics t n lo hi true).rows
      = (df.rows.map fun r => r.set n (Cell.str lo)).map
          (fun r =>
            if t < sumValues r ics then r.set n (Cell.str hi) else r) := rfl

/-! Lemmas about the threshold validation. -/

lemma check_ranges_error (ts : List ℚ) (h : ∃ t ∈ ts, ¬ (0 ≤ t ∧ t ≤ 100)) :
    check_ranges ts = Except.error rangeMsg := by
  induction ts with
  | nil => simp at h
  | cons t ts ih =>
    rcases h with ⟨u, hu, hbad⟩
    rcases List.mem_cons.mp hu with rfl | hu
    · unfold check_ranges check_range
      rw [if_neg hbad]
      rfl
    · unfold check_ranges check_range
      by_cases h0 : 0 ≤ t ∧ t ≤ 100
      · rw [if_pos h0]
        exact ih ⟨u, hu, hbad⟩
      · rw [if_neg h0]
        rfl

lemma check_ranges_ok (ts : List ℚ) (h : ∀ t ∈ ts, 0 ≤ t ∧ t ≤ 100) :
    check_ranges ts = Except.ok () := by
  induction ts with
  | nil => rfl
  | cons t ts ih =>
    unfold check_ranges check_range
    rw [if_pos (h t (List.mem_cons_self t ts))]
    exact ih fun u hu => h u (List.mem_cons_of_mem t hu)

/-! Lemmas about the lookup-table sort. -/

lemma insertByOrder_perm (x : LookupRow) (l : List LookupRow) :
    List.Perm (insertByOrder x l) (x :: l) := by
  induction l with
  | nil => rfl
  | cons y ys ih =>
    unfold insertByOrder
    by_cases h : x.dataset_order ≤ y.dataset_order
    · rw [if_pos h]
    · rw [if_neg h]
      exact (ih.cons y).trans (List.Perm.swap x y ys)

lemma sortByOrder_perm (l : List LookupRow) :
    List.Perm (sortByOrder l) l := by
  induction l with
  | nil => rfl
  | cons x xs ih =>
    unfold sortByOrder
    exact (insertByOrder_perm x (sortByOrder xs)).trans (ih.cons x)

lemma insertByOrder_pairwise (x : LookupRow) (l : List LookupRow)
    (h : l.Pairwise fun a b => a.dataset_order ≤ b.dataset_order) :
    (insertByOrder x l).Pairwise
      fun a b => a.dataset_order ≤ b.dataset_order := by
  induction l with
  | nil =>
    simp [insertByOrder]
  | cons y ys ih =>
    rcases List.pairwise_cons.mp h with ⟨hy, hys⟩
    unfold insertByOrder
    by_cases hxy : x.dataset_order ≤ y.dataset_order
    · rw [if_pos hxy]
      refine List.pairwise_cons.mpr ⟨?_, h⟩
      intro z hz
      rcases List.mem_cons.mp hz with rfl | hz
      · exact hxy
      · exact le_trans hxy (hy z hz)
    · rw [if_neg hxy]
      refine List.pairwise_cons.mpr ⟨?_, ih hys⟩
      intro z hz
      have hz2 : z ∈ x :: ys := (insertByOrder_perm x ys).mem_iff.mp hz
      rcases List.mem_cons.mp hz2 with rfl | hz2
      · exact le_of_not_le hxy
      · exact hy z hz2

lemma sortByOrder_pairwise (l : List LookupRow) :
    (sortByOrder l).Pairwise
      fun a b => a.dataset_order ≤ b.dataset_order := by
  induction l with
  | nil => exact List.Pairwise.nil
  | cons x xs ih =>
    exact insertByOrder_pairwise x (sortByOrder xs) ih

/-! Further unfolding lemmas. -/

lemma add_eudr_risk_col_rows (df : DataFrame) (n1 n2 n3 n4 : String) :
    (add_eudr_risk_col df n1 n2 n3 n4).rows
      = df.rows.map fun r =>
          r.set eudrRiskString (Cell.str (riskLabel r n1 n2 n3 n4)) := rfl

/-- The indicator row at index `i` of the non-sum branch, written as one
update of the input row. -/
lemma add_indicator_column_get (m g : String) (df : DataFrame)
    (ics : List String) (t : ℚ) (n lo hi : String) (hn : n ∉ ics)
    (hg : g ≠ n) (i : Nat) (hilen : i < df.rows.length)
    (hj : i < (add_indicator_column m g df ics t n lo hi false).rows.length) :
    (add_indicator_column m g df ics t n lo hi false).rows.get ⟨i, hj⟩
      = (df.rows.get ⟨i, hilen⟩).set n
          (if ics.any (fun col => exceeds m g (df.rows.get ⟨i, hilen⟩) col t)
           then Cell.str hi else Cell.str lo) := by
  have h1 : (add_indicator_column m g df ics t n lo hi false).rows.get ⟨i, hj⟩
      = ics.foldl (indicatorStep m g t n hi)
          ((df.rows.get ⟨i, hilen⟩).set n (Cell.str lo)) := by
    simp [add_indicator_column_rows, List.get_eq_getElem, List.getElem_map]
  rw [h1]
  exact foldl_indicatorStep m g t n hi ics (df.rows.get ⟨i, hilen⟩)
    (Cell.str lo) hn hg

/-- The high label appears at row `i` exactly when some input column of the
original row exceeds the threshold. -/
lemma add_indicator_column_high_iff (m g : String) (df : DataFrame)
    (ics : List String) (t : ℚ) (n lo hi : String) (hn : n ∉ ics)
    (hg : g ≠ n) (hlh : lo ≠ hi) (i : Nat) (hilen : i < df.rows.length)
    (hj : i < (add_indicator_column m g df ics t n lo hi false).rows.length) :
    ((add_indicator_column m g df ics t n lo hi false).rows.get ⟨i, hj⟩) n
        = Cell.str hi ↔
      ∃ col ∈ ics, exceeds m g (df.rows.get ⟨i, hilen⟩) col t = true := by
  rw [add_indicator_column_get m g df ics t n lo hi hn hg i hilen hj,
    Row.set_self]
  by_cases hb :
      ics.any (fun col => exceeds m g (df.rows.get ⟨i, hilen⟩) col t) = true
  · rw [if_pos hb]
    exact iff_of_true rfl (List.any_eq_true.mp hb)
  · rw [if_neg hb]
    constructor
    · intro hx
      exact absurd (Cell.str.inj hx) hlh
    · intro hx
      exact absurd (List.any_eq_true.mpr hx) hb

/-- When no input column exceeds the threshold, row `i` keeps the low
label. -/
lemma add_indicator_column_low (m g : String) (df : DataFrame)
    (ics : List String) (t : ℚ) (n lo hi : String) (hn : n ∉ ics)
    (hg : g ≠ n) (i : Nat) (hilen : i < df.rows.length)
    (hj : i < (add_indicator_column m g df ics t n lo hi false).rows.length)
    (hno : ¬ ∃ col ∈ ics, exceeds m g (df.rows.get ⟨i, hilen⟩) col t = true) :
    ((add_indicator_column m g df ics t n lo hi false).rows.get ⟨i, hj⟩) n
      = Cell.str lo := by
  rw [add_indicator_column_get m g df ics t n lo hi hn hg i hilen hj,
    Row.set_self,
    if_neg (fun hb => hno (List.any_eq_true.mp hb))]

/-- In "ha" mode, a numeric cell is compared through the clamped
percentage of the area column. -/
lemma exceeds_ha (g : String) (r : Row) (col : String) (t v a : ℚ)
    (hv : r col = Cell.num v) (hA : r g = Cell.num a) :
    exceeds haString g r col t = decide (t < clamp (v / a * 100) 0 100) := by
  unfold exceeds valToCheck
  rw [if_pos rfl, hv, hA]

/-- In "percent" mode, a numeric cell is compared unmodified. -/
lemma exceeds_percent (g : String) (r : Row) (col : String) (t v : ℚ)
    (hv : r col = Cell.num v) :
    exceeds percentString g r col t = decide (t < v) := by
  unfold exceeds valToCheck
  rw [if_neg (by decide), hv]
  rfl

/-- C1: contrary to the claim, `whisp_risk` adds only three indicator
columns before computing the risk column: its `names` list omits
`ind_4_name`, so the zip inside `add_indicators` stops after three calls
and the column named by `ind_4_name` is absent from the output (the
source's subsequent `row[ind_4_name]` lookup would raise a `KeyError` in
pandas; in this total embedding it reads `Cell.missing`). -/
theorem C1_only_three_indicators_added :
    (whisp_risk percentString gCol dfMetrics 10 10 10 10 [aCol] [aCol] [aCol]
        [aCol] i1 i2 i3 i4 noString yesString).map DataFrame.cols
      = Except.ok [aCol, gCol, i1, i2, i3, eudrRiskString] ∧
    (whisp_risk percentString gCol dfMetrics 10 10 10 10 [aCol] [aCol] [aCol]
        [aCol] i1 i2 i3 i4 noString yesString).map
        (fun out => decide (i4 ∈ out.cols))
      = Except.ok false := by
  constructor
  · rfl
  · rfl

/-- C2: for every row of a table carrying the four indicator columns,
`add_eudr_risk_col` assigns `EUDR_risk` by the exact precedence: "low" if
indicator 1 is "no" or indicator 2 is "yes" or indicator 3 is "yes",
otherwise "more_info_needed" if indicator 4 is "no", otherwise "high"; in
particular the claim's two concrete rows get "more_info_needed" and
"high". -/
theorem C2_risk_precedence (df : DataFrame) (n1 n2 n3 n4 : String)
    (i : Nat) (hilen : i < df.rows.length) :
    (∃ hj : i < (add_eudr_risk_col df n1 n2 n3 n4).rows.length,
      ((add_eudr_risk_col df n1 n2 n3 n4).rows.get ⟨i, hj⟩) eudrRiskString
        = Cell.str
            (if (df.rows.get ⟨i, hilen⟩) n1 = Cell.str noString ∨
                (df.rows.get ⟨i, hilen⟩) n2 = Cell.str yesString ∨
                (df.rows.get ⟨i, hilen⟩) n3 = Cell.str yesString then
              lowString
             else if (df.rows.get ⟨i, hilen⟩) n4 = Cell.str noString then
              moreInfoString
             else highString)) ∧
    (add_eudr_risk_col dfRisk i1 i2 i3 i4).rows.map
        (fun r => r eudrRiskString)
      = [Cell.str moreInfoString, Cell.str highString] := by
  constructor
  · have hj : i < (add_eudr_risk_col df n1 n2 n3 n4).rows.length := by
      rw [add_eudr_risk_col_rows, List.length_map]
      exact hilen
    refine ⟨hj, ?_⟩
    have hget : (add_eudr_risk_col df n1 n2 n3 n4).rows.get ⟨i, hj⟩
        = (df.rows.get ⟨i, hilen⟩).set eudrRiskString
            (Cell.str (riskLabel (df.rows.get ⟨i, hilen⟩) n1 n2 n3 n4)) := by
      simp [add_eudr_risk_col_rows, List.get_eq_getElem, List.getElem_map]
    rw [hget, Row.set_self]
    rfl
  · decide

/-- C2 witness: the first row of the concrete frame gets
"more_info_needed". -/
theorem C2_risk_precedence_witness :
    ∃ hj : 0 < (add_eudr_risk_col dfRisk i1 i2 i3 i4).rows.length,
      ((add_eudr_risk_col dfRisk i1 i2 i3 i4).rows.get ⟨0, hj⟩)
          eudrRiskString = Cell.str moreInfoString := by
  obtain ⟨⟨hj, hval⟩, -⟩ :=
    C2_risk_precedence dfRisk i1 i2 i3 i4 0 (by decide)
  refine ⟨hj, ?_⟩
  rw [hval]
  decide

/-- C3: `whisp_risk` with any threshold outside [0, 100] stops with the
range error before any table is built (the embedding returns the error and
no output frame, leaving the pure input untouched); with all four
thresholds inside the interval, boundary values 0 and 100 included, the
check passes and the pipeline output is produced. -/
theorem C3_threshold_range_check (m g : String) (df : DataFrame)
    (t1 t2 t3 t4 : ℚ) (ic1 ic2 ic3 ic4 : List String)
    (n1 n2 n3 n4 lo hi : String) :
    ((¬ (0 ≤ t1 ∧ t1 ≤ 100) ∨ ¬ (0 ≤ t2 ∧ t2 ≤ 100) ∨
        ¬ (0 ≤ t3 ∧ t3 ≤ 100) ∨ ¬ (0 ≤ t4 ∧ t4 ≤ 100)) →
      whisp_risk m g df t1 t2 t3 t4 ic1 ic2 ic3 ic4 n1 n2 n3 n4 lo hi
        = Except.error rangeMsg) ∧
    ((0 ≤ t1 ∧ t1 ≤ 100) → (0 ≤ t2 ∧ t2 ≤ 100) → (0 ≤ t3 ∧ t3 ≤ 100) →
      (0 ≤ t4 ∧ t4 ≤ 100) →
      whisp_risk m g df t1 t2 t3 t4 ic1 ic2 ic3 ic4 n1 n2 n3 n4 lo hi
        = Except.ok (add_eudr_risk_col
            (add_indicators m g df [ic1, ic2, ic3, ic4] [t1, t2, t3, t4]
              [n1, n2, n3] lo hi) n1 n2 n3 n4)) := by
  constructor
  · intro h
    unfold whisp_risk
    rw [check_ranges_error]
    · rfl
    · rcases h with h | h | h | h
      · exact ⟨t1, by simp, h⟩
      · exact ⟨t2, by simp, h⟩
      · exact ⟨t3, by simp, h⟩
      · exact ⟨t4, by simp, h⟩
  · intro h1 h2 h3 h4
    unfold whisp_risk
    rw [check_ranges_ok]
    · rfl
    · intro t ht
      fin_cases ht <;> assumption

/-- C3 witness: threshold 150 and threshold -5 produce the range error,
and the boundary thresholds 0 and 100 pass. -/
theorem C3_threshold_range_check_witness :
    whisp_risk percentString gCol dfMetrics 150 10 10 10 [aCol] [aCol]
        [aCol] [aCol] i1 i2 i3 i4 noString yesString
      = Except.error rangeMsg ∧
    whisp_risk percentString gCol dfMetrics 0 100 (-5) 10 [aCol] [aCol]
        [aCol] [aCol] i1 i2 i3 i4 noString yesString
      = Except.error rangeMsg ∧
    whisp_risk percentString gCol dfMetrics 0 100 0 100 [aCol] [aCol]
        [aCol] [aCol] i1 i2 i3 i4 noString yesString
      = Except.ok (add_eudr_risk_col
          (add_indicators percentString gCol dfMetrics
            [[aCol], [aCol], [aCol], [aCol]] [0, 100, 0, 100] [i1, i2, i3]
            noString yesString) i1 i2 i3 i4) := by
  refine ⟨?_, ?_, ?_⟩
  · exact (C3_threshold_range_check percentString gCol dfMetrics 150 10 10 10
      [aCol] [aCol] [aCol] [aCol] i1 i2 i3 i4 noString yesString).1
      (Or.inl (by norm_num))
  · exact (C3_threshold_range_check percentString gCol dfMetrics 0 100 (-5) 10
      [aCol] [aCol] [aCol] [aCol] i1 i2 i3 i4 noString yesString).1
      (Or.inr (Or.inr (Or.inl (by norm_num))))
  · exact (C3_threshold_range_check percentString gCol dfMetrics 0 100 0 100
      [aCol] [aCol] [aCol] [aCol] i1 i2 i3 i4 noString yesString).2
      (by norm_num) (by norm_num) (by norm_num) (by norm_num)

/-- C4: every row of the output of `add_indicator_column` holds one of the
two label strings in the new column — no missing or other value, in both
the sum and the per-column comparison branch. -/
theorem C4_labels_only (m g : String) (df : DataFrame) (ics : List String)
    (t : ℚ) (ht : 0 ≤ t ∧ t ≤ 100) (n lo hi : String) (sc : Bool) (r : Row)
    (hr : r ∈ (add_indicator_column m g df ics t n lo hi sc).rows) :
    r n = Cell.str lo ∨ r n = Cell.str hi := by
  cases sc with
  | false =>
    rw [add_indicator_column_rows] at hr
    rcases List.mem_map.mp hr with ⟨r1, hr1, rfl⟩
    rcases List.mem_map.mp hr1 with ⟨r0, hr0, rfl⟩
    rcases foldl_indicatorStep_mem m g t n hi ics (r0.set n (Cell.str lo))
      with h | h
    · left
      rw [h, Row.set_self]
    · right
      exact h
  | true =>
    rw [add_indicator_column_sum_rows] at hr
    rcases List.mem_map.mp hr with ⟨r1, hr1, rfl⟩
    rcases List.mem_map.mp hr1 with ⟨r0, hr0, rfl⟩
    by_cases hb : t < sumValues (r0.set n (Cell.str lo)) ics
    · right
      rw [if_pos hb, Row.set_set, Row.set_self]
    · left
      rw [if_neg hb, Row.set_self]

/-- C4 witness: the single output row of a concrete call carries one of
the two labels. -/
theorem C4_labels_only_witness :
    ∃ h0 : 0 < (add_indicator_column percentString gCol dfMetrics [aCol] 10
        indCol noString yesString false).rows.length,
      ((add_indicator_column percentString gCol dfMetrics [aCol] 10 indCol
          noString yesString false).rows.get ⟨0, h0⟩) indCol
          = Cell.str noString ∨
      ((add_indicator_column percentString gCol dfMetrics [aCol] 10 indCol
          noString yesString false).rows.get ⟨0, h0⟩) indCol
          = Cell.str yesString := by
  have h0 : 0 < (add_indicator_column percentString gCol dfMetrics [aCol] 10
      indCol noString yesString false).rows.length := by decide
  exact ⟨h0, C4_labels_only percentString gCol dfMetrics [aCol] 10
    (by norm_num) indCol noString yesString false _ (List.get_mem _ _ _)⟩

/-- C5: with `sum_comparison = false` the row is labeled with the high
name exactly when at least one input column's processed value strictly
exceeds the threshold (a logical OR across the columns), and with the low
name when none does.  The hypotheses record that the new column is not
itself one of the inputs nor the area column, and that the two labels
differ. -/
theorem C5_or_across_columns (m g : String) (df : DataFrame)
    (ics : List String) (t : ℚ) (n lo hi : String)
    (hn : n ∉ ics) (hg : g ≠ n) (hlh : lo ≠ hi)
    (i : Nat) (hilen : i < df.rows.length) :
    ∃ hj : i < (add_indicator_column m g df ics t n lo hi
        false).rows.length,
      (((add_indicator_column m g df ics t n lo hi false).rows.get
          ⟨i, hj⟩) n = Cell.str hi ↔
        ∃ col ∈ ics, exceeds m g (df.rows.get ⟨i, hilen⟩) col t = true) ∧
      ((¬ ∃ col ∈ ics, exceeds m g (df.rows.get ⟨i, hilen⟩) col t = true) →
        ((add_indicator_column m g df ics t n lo hi false).rows.get
          ⟨i, hj⟩) n = Cell.str lo) := by
  have hj : i < (add_indicator_column m g df ics t n lo hi
      false).rows.length := by
    rw [add_indicator_column_rows, List.length_map, List.length_map]
    exact hilen
  exact ⟨hj,
    add_indicator_column_high_iff m g df ics t n lo hi hn hg hlh i hilen hj,
    add_indicator_column_low m g df ics t n lo hi hn hg i hilen hj⟩

/-- C5 witness: the concrete metric 50 exceeds threshold 10, so the row is
labeled with the high name. -/
theorem C5_or_across_columns_witness :
    ∃ hj : 0 < (add_indicator_column percentString gCol dfMetrics [aCol] 10
        indCol noString yesString false).rows.length,
      ((add_indicator_column percentString gCol dfMetrics [aCol] 10 indCol
          noString yesString false).rows.get ⟨0, hj⟩) indCol
        = Cell.str yesString := by
  obtain ⟨hj, hiff, -⟩ :=
    C5_or_across_columns percentString gCol dfMetrics [aCol] 10 indCol
      noString yesString (by decide) (by decide) (by decide) 0 (by decide)
  exact ⟨hj, hiff.mpr ⟨aCol, by decide, by decide⟩⟩

/-- C6: the reordered frame's column list is exactly the prefix columns
followed by the lookup's dataset names sorted ascending by the order
field (the sorted sequence being a permutation of the lookup rows whose
orders are pairwise nondecreasing); canonical columns absent from the
input read as missing, and input columns outside the canonical list are
dropped (their cells read as missing), so the column set equals the
canonical list, never the union. -/
theorem C6_column_reordering (df : DataFrame) (lk : List LookupRow)
    (pre : List String) :
    (reorder_columns_by_lookup df lk pre).cols
        = pre ++ (sortByOrder lk).map LookupRow.dataset_name ∧
    List.Perm (sortByOrder lk) lk ∧
    List.Pairwise (fun x y : LookupRow => x.dataset_order ≤ y.dataset_order)
      (sortByOrder lk) ∧
    ∀ i : Nat, ∀ hilen : i < df.rows.length,
      ∃ hj : i < (reorder_columns_by_lookup df lk pre).rows.length,
        (∀ c : String, c ∈ (reorder_columns_by_lookup df lk pre).cols →
          c ∈ df.cols →
          ((reorder_columns_by_lookup df lk pre).rows.get ⟨i, hj⟩) c
            = (df.rows.get ⟨i, hilen⟩) c) ∧
        (∀ c : String, c ∉ (reorder_columns_by_lookup df lk pre).cols →
          ((reorder_columns_by_lookup df lk pre).rows.get ⟨i, hj⟩) c
            = Cell.missing) ∧
        (∀ c : String, c ∉ df.cols →
          ((reorder_columns_by_lookup df lk pre).rows.get ⟨i, hj⟩) c
            = Cell.missing) := by
  refine ⟨rfl, sortByOrder_perm lk, sortByOrder_pairwise lk, ?_⟩
  intro i hilen
  have hj : i < (reorder_columns_by_lookup df lk pre).rows.length := by
    unfold reorder_columns_by_lookup reindex
    rw [List.length_map]
    exact hilen
  have hget : (reorder_columns_by_lookup df lk pre).rows.get ⟨i, hj⟩
      = fun c =>
          if c ∈ create_column_list_from_lookup lk pre ∧ c ∈ df.cols then
            (df.rows.get ⟨i, hilen⟩) c
          else Cell.missing := by
    simp [reorder_columns_by_lookup, reindex, List.get_eq_getElem,
      List.getElem_map]
  refine ⟨hj, ?_, ?_, ?_⟩
  · intro c h1 h2
    rw [hget]
    exact if_pos ⟨h1, h2⟩
  · intro c h1
    rw [hget]
    exact if_neg fun hb => h1 hb.1
  · intro c h2
    rw [hget]
    exact if_neg fun hb => h2 hb.2

/-- C6 witness: on the concrete frame the columns become the prefix
followed by the names ordered 1, 2; the dropped extra column and the
absent canonical column both read as missing. -/
theorem C6_column_reordering_witness :
    (reorder_columns_by_lookup dfC6 lkC6 [pCol]).cols = [pCol, nB, nA] ∧
    ∃ hj : 0 < (reorder_columns_by_lookup dfC6 lkC6 [pCol]).rows.length,
      ((reorder_columns_by_lookup dfC6 lkC6 [pCol]).rows.get ⟨0, hj⟩) xCol
          = Cell.missing ∧
      ((reorder_columns_by_lookup dfC6 lkC6 [pCol]).rows.get ⟨0, hj⟩) nB
          = Cell.missing := by
  obtain ⟨hcols, -, -, hrows⟩ := C6_column_reordering dfC6 lkC6 [pCol]
  obtain ⟨hj, -, hdrop, habsent⟩ := hrows 0 (by decide)
  refine ⟨hcols.trans (by decide), hj, ?_, ?_⟩
  · refine hdrop xCol ?_
    rw [hcols]
    decide
  · exact habsent nB (by decide)

/-- C8: in "ha" unit mode the threshold is compared against the clamped
percentage `clamp (value / area * 100) 0 100` of the row's numeric cells,
and in "percent" mode against the raw cell value. -/
theorem C8_ha_normalization (g : String) (df : DataFrame)
    (ics : List String) (t : ℚ) (n lo hi : String) (hn : n ∉ ics)
    (hg : g ≠ n) (hlh : lo ≠ hi) (i : Nat) (hilen : i < df.rows.length)
    (a : ℚ) (hA : (df.rows.get ⟨i, hilen⟩) g = Cell.num a)
    (hNum : ∀ c ∈ ics, ∃ v : ℚ, (df.rows.get ⟨i, hilen⟩) c = Cell.num v) :
    (∃ hj : i < (add_indicator_column haString g df ics t n lo hi
        false).rows.length,
      ((add_indicator_column haString g df ics t n lo hi false).rows.get
          ⟨i, hj⟩) n = Cell.str hi ↔
        ∃ c ∈ ics, ∃ v : ℚ, (df.rows.get ⟨i, hilen⟩) c = Cell.num v ∧
          t < clamp (v / a * 100) 0 100) ∧
    (∃ hj : i < (add_indicator_column percentString g df ics t n lo hi
        false).rows.length,
      ((add_indicator_column percentString g df ics t n lo hi
          false).rows.get ⟨i, hj⟩) n = Cell.str hi ↔
        ∃ c ∈ ics, ∃ v : ℚ, (df.rows.get ⟨i, hilen⟩) c = Cell.num v ∧
          t < v) := by
  constructor
  · have hj : i < (add_indicator_column haString g df ics t n lo hi
        false).rows.length := by
      rw [add_indicator_column_rows, List.length_map, List.length_map]
      exact hilen
    refine ⟨hj, (add_indicator_column_high_iff haString g df ics t n lo hi
      hn hg hlh i hilen hj).trans ?_⟩
    constructor
    · rintro ⟨c, hc, hex⟩
      obtain ⟨v, hv⟩ := hNum c hc
      rw [exceeds_ha g (df.rows.get ⟨i, hilen⟩) c t v a hv hA] at hex
      exact ⟨c, hc, v, hv, of_decide_eq_true hex⟩
    · rintro ⟨c, hc, v, hv, hlt⟩
      refine ⟨c, hc, ?_⟩
      rw [exceeds_ha g (df.rows.get ⟨i, hilen⟩) c t v a hv hA]
      exact decide_eq_true hlt
  · have hj : i < (add_indicator_column percentString g df ics t n lo hi
        false).rows.length := by
      rw [add_indicator_column_rows, List.length_map, List.length_map]
      exact hilen
    refine ⟨hj, (add_indicator_column_high_iff percentString g df ics t n lo
      hi hn hg hlh i hilen hj).trans ?_⟩
    constructor
    · rintro ⟨c, hc, hex⟩
      obtain ⟨v, hv⟩ := hNum c hc
      rw [exceeds_percent g (df.rows.get ⟨i, hilen⟩) c t v hv] at hex
      exact ⟨c, hc, v, hv, of_decide_eq_true hex⟩
    · rintro ⟨c, hc, v, hv, hlt⟩
      refine ⟨c, hc, ?_⟩
      rw [exceeds_percent g (df.rows.get ⟨i, hilen⟩) c t v hv]
      exact decide_eq_true hlt

/-- C8 witness: with area 100 and metric 50, the clamped percentage 50
exceeds threshold 10 in "ha" mode, so the row is labeled high. -/
theorem C8_ha_normalization_witness :
    ∃ hj : 0 < (add_indicator_column haString gCol dfMetrics [aCol] 10
        indCol noString yesString false).rows.length,
      ((add_indicator_column haString gCol dfMetrics [aCol] 10 indCol
          noString yesString false).rows.get ⟨0, hj⟩) indCol
        = Cell.str yesString := by
  obtain ⟨⟨hj, hiff⟩, -⟩ :=
    C8_ha_normalization gCol dfMetrics [aCol] 10 indCol noString yesString
      (by decide) (by decide) (by decide) 0 (by decide) 100 (by decide)
      (by intro c hc
          fin_cases hc
          exact ⟨50, by decide⟩)
  exact ⟨hj, hiff.mpr ⟨aCol, by decide, 50, by decide,
    by norm_num [clamp, min_def, max_def]⟩⟩

/-- C9 counterexample: the claim quantifies over every label pair other
than ("no", "yes"); the pair ("no", "maybe") is such a pair, yet on a row
whose first indicator cell is "no" the first branch fires and the row is
labeled "low", not "high". -/
theorem C9_counterexample :
    (noString, maybeString) ≠ (noString, yesString) ∧
    (add_eudr_risk_col dfC9 i1 i2 i3 i4).rows.map (fun r => r eudrRiskString)
      = [Cell.str lowString] ∧
    Cell.str lowString ≠ Cell.str highString := by
  refine ⟨by decide, by decide, by decide⟩

/-- C9 (amended): `add_eudr_risk_col` compares cells against the literal
strings "no" and "yes" regardless of the label arguments; whenever the
four indicator columns never contain the literal "no" or "yes" — in
particular for any label pair in which neither label is "no" nor "yes" —
the first two decision branches never fire and every row is labeled
"high". -/
theorem C9_literal_label_comparison (df : DataFrame) (n1 n2 n3 n4 : String)
    (h : ∀ r ∈ df.rows, ∀ nm ∈ [n1, n2, n3, n4],
      r nm ≠ Cell.str noString ∧ r nm ≠ Cell.str yesString)
    (r : Row) (hr : r ∈ (add_eudr_risk_col df n1 n2 n3 n4).rows) :
    r eudrRiskString = Cell.str highString := by
  rw [add_eudr_risk_col_rows] at hr
  rcases List.mem_map.mp hr with ⟨r0, hr0, rfl⟩
  rw [Row.set_self]
  have h1 := h r0 hr0 n1 (by simp)
  have h2 := h r0 hr0 n2 (by simp)
  have h3 := h r0 hr0 n3 (by simp)
  have h4 := h r0 hr0 n4 (by simp)
  unfold riskLabel
  have hc1 : ¬ (r0 n1 = Cell.str noString ∨ r0 n2 = Cell.str yesString ∨
      r0 n3 = Cell.str yesString) := by
    rintro (hx | hx | hx)
    · exact h1.1 hx
    · exact h2.2 hx
    · exact h3.2 hx
  rw [if_neg hc1, if_neg h4.1]

/-- C9 witness (amended claim): with the label pair ("L", "H") neither
branch fires and the concrete row gets "high". -/
theorem C9_literal_label_comparison_witness :
    ∃ h0 : 0 < (add_eudr_risk_col dfC9w i1 i2 i3 i4).rows.length,
      ((add_eudr_risk_col dfC9w i1 i2 i3 i4).rows.get ⟨0, h0⟩)
          eudrRiskString = Cell.str highString := by
  have h0 : 0 < (add_eudr_risk_col dfC9w i1 i2 i3 i4).rows.length := by
    decide
  exact ⟨h0, C9_literal_label_comparison dfC9w i1 i2 i3 i4 (by decide) _
    (List.get_mem _ _ _)⟩

/-- C10: called without explicit label arguments, `add_indicator_column`
defaults to `low_name = "yes"` and `high_name = "no"` (the reverse of its
docstring): every row starts at "yes" and rows whose metric strictly
exceeds the threshold are set to "no". -/
theorem C10_reversed_defaults (m g : String) (df : DataFrame)
    (ics : List String) (t : ℚ) (n : String) (hn : n ∉ ics) (hg : g ≠ n)
    (i : Nat) (hilen : i < df.rows.length) :
    add_indicator_column m g df ics t n
        = add_indicator_column m g df ics t n yesString noString false ∧
    ∃ hj : i < (add_indicator_column m g df ics t n).rows.length,
      ((add_indicator_column m g df ics t n).rows.get ⟨i, hj⟩) n
        = Cell.str
            (if ics.any (fun c => exceeds m g (df.rows.get ⟨i, hilen⟩) c t)
             then noString else yesString) := by
  refine ⟨rfl, ?_⟩
  have e : add_indicator_column m g df ics t n
      = add_indicator_column m g df ics t n yesString noString false := rfl
  have hj : i < (add_indicator_column m g df ics t n).rows.length := by
    rw [e, add_indicator_column_rows, List.length_map, List.length_map]
    exact hilen
  refine ⟨hj, ?_⟩
  have key2 : (add_indicator_column m g df ics t n).rows.get ⟨i, hj⟩
      = (df.rows.get ⟨i, hilen⟩).set n
          (if ics.any (fun c => exceeds m g (df.rows.get ⟨i, hilen⟩) c t)
           then Cell.str noString else Cell.str yesString) :=
    add_indicator_column_get m g df ics t n yesString noString hn hg i
      hilen (by rw [e] at hj; exact hj)
  rw [key2, Row.set_self]
  by_cases hb :
      ics.any (fun c => exceeds m g (df.rows.get ⟨i, hilen⟩) c t) = true
  · rw [if_pos hb, if_pos hb]
  · rw [if_neg hb, if_neg hb]

/-- C10 witness: metric 50 exceeds threshold 10, and under the defaults
the concrete row's cell becomes the literal "no". -/
theorem C10_reversed_defaults_witness :
    ∃ hj : 0 < (add_indicator_column percentString gCol dfMetrics [aCol] 10
        indCol).rows.length,
      ((add_indicator_column percentString gCol dfMetrics [aCol] 10
          indCol).rows.get ⟨0, hj⟩) indCol = Cell.str noString := by
  obtain ⟨-, hj, hval⟩ :=
    C10_reversed_defaults percentString gCol dfMetrics [aCol] 10 indCol
      (by decide) (by decide) 0 (by decide)
  refine ⟨hj, ?_⟩
  rw [hval]
  decide

end Whisp
